import Mathlib

/-!
Verification of the JSON decoding layer of the `opensky_api` crate.

The wire format is modelled as a JSON value tree (`Json`): a serde_json
`Value`.  Numbers mirror serde_json's internal tagging: a non-negative
integer that fits in a u64 parses to `JNum.posInt`, every other numeric
token to `JNum.float` (floats are modelled losslessly as rationals, which
is exact at the AST level because serde_json's ryu printing round-trips).
Machine integers are `Nat` with explicit range checks where the Rust code
performs them (serde's u8/u16/u32 visitors) and explicit `% 256`
truncation where the code casts with `as u8`.

Fallible Rust operations return `Except`; a Rust `panic` (an `unwrap` of
`None`/`Err`, or an out-of-bounds index) is the distinguished error value
`DError.panicked`, a serde error returned to the caller is
`DError.custom`.
-/

namespace Opensky

/-- A serde_json `Number`: `posInt` is the `u64` representation of a
non-negative integer token, `float` the `f64` representation of any other
numeric token (modelled losslessly as a rational). -/
inductive JNum where
  | posInt (n : ℕ)
  | float (q : ℚ)
deriving DecidableEq, Repr

/-- A serde_json `Value`. Objects are ordered key/value lists (serde_json
maps with the keys our encoders emit, which are distinct). -/
inductive Json where
  | null
  | bool (b : Bool)
  | num (n : JNum)
  | str (s : String)
  | arr (elems : List Json)
  | obj (entries : List (String × Json))
deriving Repr

/-- `Number::as_u64`: `Some` exactly for the non-negative-integer tag. -/
def JNum.as_u64 : JNum → Option ℕ
  | .posInt n => some n
  | .float _ => none

/-- `Number::as_f64`: every number casts to f64. -/
def JNum.as_f64 : JNum → ℚ
  | .posInt n => (n : ℚ)
  | .float q => q

/-- Key lookup in an object's entry list (serde_json `Map::get`). -/
def getEntry : List (String × Json) → String → Option Json
  | [], _ => none
  | (k, v) :: rest, key => if k = key then some v else getEntry rest key

/-- `Value::get`: `None` on a non-object. -/
def Json.get : Json → String → Option Json
  | .obj entries, key => getEntry entries key
  | _, _ => none

/-- `Value::as_u64`. -/
def Json.as_u64 : Json → Option ℕ
  | .num n => n.as_u64
  | _ => none

/-- `Value::as_f64`. -/
def Json.as_f64 : Json → Option ℚ
  | .num n => some n.as_f64
  | _ => none

/-- `Value::as_bool`. -/
def Json.as_bool : Json → Option Bool
  | .bool b => some b
  | _ => none

/-! ### serde primitive deserializers (shared by the derived impls) -/

/-- serde `String` deserialization from a `Value`. -/
def parseString : Json → Option String
  | .str s => some s
  | _ => none

/-- serde `u64` deserialization: only an integer number token. -/
def parseU64 : Json → Option ℕ
  | .num (.posInt n) => some n
  | _ => none

/-- serde `u8`: integer token, range-checked. -/
def parseU8 : Json → Option ℕ
  | .num (.posInt n) => if n ≤ 255 then some n else none
  | _ => none

/-- serde `u16`: integer token, range-checked. -/
def parseU16 : Json → Option ℕ
  | .num (.posInt n) => if n ≤ 65535 then some n else none
  | _ => none

/-- serde `u32`: integer token, range-checked. -/
def parseU32 : Json → Option ℕ
  | .num (.posInt n) => if n ≤ 4294967295 then some n else none
  | _ => none

/-- serde `f32`/`f64`: any number token casts. -/
def parseF : Json → Option ℚ
  | .num n => some n.as_f64
  | _ => none

/-- serde `bool`. -/
def parseBool : Json → Option Bool
  | .bool b => some b
  | _ => none

/-- serde `Option<T>`: wire null is `None`, anything else must parse as `T`. -/
def parseOpt (p : Json → Option α) : Json → Option (Option α)
  | .null => some none
  | j => (p j).map some

/-- serde `Vec<T>` element loop: first failure aborts. -/
def parseList (p : Json → Option α) : List Json → Option (List α)
  | [] => some []
  | j :: rest => do
    let a ← p j
    let as ← parseList p rest
    pure (a :: as)

/-- serde `Vec<T>`: only an array, then the element loop. -/
def parseVec (p : Json → Option α) : Json → Option (List α)
  | .arr xs => parseList p xs
  | _ => none

/-! ### Decode outcomes: returned serde errors vs. panics -/

/-- How a decode can go wrong: `custom` is a serde error returned to the
caller, `panicked` is a Rust panic (`unwrap` of `None`/`Err`, index out of
bounds). -/
inductive DError where
  | panicked
  | custom (msg : String)
deriving DecidableEq, Repr

abbrev DResult (α : Type) := Except DError α

/-- `Option::unwrap`: panics on `None`. -/
def unwrapO : Option α → DResult α
  | some a => .ok a
  | none => .error .panicked

/-- `Result::unwrap`: panics on `Err`. -/
def unwrapE : DResult α → DResult α
  | .ok a => .ok a
  | .error _ => .error .panicked

/-- `Vec` indexing `value[i]`: panics when out of bounds. -/
def indexPanic (vs : List Json) (i : ℕ) : DResult Json :=
  unwrapO (vs.get? i)

/-! ### states.rs: `PositionSource` and `AirCraftCategory` -/

inductive PositionSource where
  | ADSB
  | ASTERIX
  | MLAT
  | FLARM
deriving DecidableEq, Repr

/-- `impl From<u8> for PositionSource` (the `_ =>` arm logs and falls back
to `ADSB`). -/
def PositionSource.fromU8 : ℕ → PositionSource
  | 0 => .ADSB
  | 1 => .ASTERIX
  | 2 => .MLAT
  | 3 => .FLARM
  | _ => .ADSB

/-- `impl From<&str> for PositionSource` (unknown strings log and fall
back to `ADSB`). -/
def PositionSource.fromStr (value : String) : PositionSource :=
  if value = "ADSB" then .ADSB
  else if value = "ASTERIX" then .ASTERIX
  else if value = "MLAT" then .MLAT
  else if value = "FLARM" then .FLARM
  else .ADSB

/-- The canonical variant name the derived `Serialize` emits. -/
def PositionSource.canonicalName : PositionSource → String
  | .ADSB => "ADSB"
  | .ASTERIX => "ASTERIX"
  | .MLAT => "MLAT"
  | .FLARM => "FLARM"

/-- The known wire ordinal of each variant (the `From<u8>` table read
backwards). -/
def PositionSource.ordinal : PositionSource → ℕ
  | .ADSB => 0
  | .ASTERIX => 1
  | .MLAT => 2
  | .FLARM => 3

/-- `impl Deserialize for PositionSource`: a number goes through
`num.as_u64().unwrap() as u8` (the cast truncates mod 256, the `unwrap`
panics on a non-integer number), a string through `From<&str>`, anything
else is a returned serde error. -/
def PositionSource.deserialize : Json → DResult PositionSource
  | .num n =>
    match n.as_u64 with
    | some v => .ok (PositionSource.fromU8 (v % 256))
    | none => .error .panicked
  | .str s => .ok (PositionSource.fromStr s)
  | _ => .error (.custom "expected a number")

inductive AirCraftCategory where
  | NoInformation
  | NoADSB
  | Light
  | Small
  | Large
  | HighVortexLarge
  | Heavy
  | HighPerformance
  | Rotorcraft
  | Glider
  | LighterThanAir
  | Parachutist
  | Ultralight
  | Reserved
  | UAV
  | Space
  | SurfaceEmergency
  | SurfaceService
  | PointObstacle
  | ClusterObstacle
  | LineObstacle
deriving DecidableEq, Repr

/-- `impl From<u8> for AirCraftCategory` (the `_ =>` arm falls back to
`NoInformation`). -/
def AirCraftCategory.fromU8 : ℕ → AirCraftCategory
  | 0 => .NoInformation
  | 1 => .NoADSB
  | 2 => .Light
  | 3 => .Small
  | 4 => .Large
  | 5 => .HighVortexLarge
  | 6 => .Heavy
  | 7 => .HighPerformance
  | 8 => .Rotorcraft
  | 9 => .Glider
  | 10 => .LighterThanAir
  | 11 => .Parachutist
  | 12 => .Ultralight
  | 13 => .Reserved
  | 14 => .UAV
  | 15 => .Space
  | 16 => .SurfaceEmergency
  | 17 => .SurfaceService
  | 18 => .PointObstacle
  | 19 => .ClusterObstacle
  | 20 => .LineObstacle
  | _ => .NoInformation

/-- The canonical variant name the derived `Serialize` emits (also the
string table of `From<&str>`). -/
def AirCraftCategory.canonicalName : AirCraftCategory → String
  | .NoInformation => "NoInformation"
  | .NoADSB => "NoADSB"
  | .Light => "Light"
  | .Small => "Small"
  | .Large => "Large"
  | .HighVortexLarge => "HighVortexLarge"
  | .Heavy => "Heavy"
  | .HighPerformance => "HighPerformance"
  | .Rotorcraft => "Rotorcraft"
  | .Glider => "Glider"
  | .LighterThanAir => "LighterThanAir"
  | .Parachutist => "Parachutist"
  | .Ultralight => "Ultralight"
  | .Reserved => "Reserved"
  | .UAV => "UAV"
  | .Space => "Space"
  | .SurfaceEmergency => "SurfaceEmergency"
  | .SurfaceService => "SurfaceService"
  | .PointObstacle => "PointObstacle"
  | .ClusterObstacle => "ClusterObstacle"
  | .LineObstacle => "LineObstacle"

/-- The list of all canonical names, in ordinal order. -/
def AirCraftCategory.names : List String :=
  ["NoInformation", "NoADSB", "Light", "Small", "Large", "HighVortexLarge",
   "Heavy", "HighPerformance", "Rotorcraft", "Glider", "LighterThanAir",
   "Parachutist", "Ultralight", "Reserved", "UAV", "Space",
   "SurfaceEmergency", "SurfaceService", "PointObstacle", "ClusterObstacle",
   "LineObstacle"]

/-- The known wire ordinal of each variant. -/
def AirCraftCategory.ordinal : AirCraftCategory → ℕ
  | .NoInformation => 0
  | .NoADSB => 1
  | .Light => 2
  | .Small => 3
  | .Large => 4
  | .HighVortexLarge => 5
  | .Heavy => 6
  | .HighPerformance => 7
  | .Rotorcraft => 8
  | .Glider => 9
  | .LighterThanAir => 10
  | .Parachutist => 11
  | .Ultralight => 12
  | .Reserved => 13
  | .UAV => 14
  | .Space => 15
  | .SurfaceEmergency => 16
  | .SurfaceService => 17
  | .PointObstacle => 18
  | .ClusterObstacle => 19
  | .LineObstacle => 20

/-- `impl From<&str> for AirCraftCategory`: exact match against the table,
unknown strings fall back to `NoInformation`. -/
def AirCraftCategory.fromStr (value : String) : AirCraftCategory :=
  if value = "NoInformation" then .NoInformation
  else if value = "NoADSB" then .NoADSB
  else if value = "Light" then .Light
  else if value = "Small" then .Small
  else if value = "Large" then .Large
  else if value = "HighVortexLarge" then .HighVortexLarge
  else if value = "Heavy" then .Heavy
  else if value = "HighPerformance" then .HighPerformance
  else if value = "Rotorcraft" then .Rotorcraft
  else if value = "Glider" then .Glider
  else if value = "LighterThanAir" then .LighterThanAir
  else if value = "Parachutist" then .Parachutist
  else if value = "Ultralight" then .Ultralight
  else if value = "Reserved" then .Reserved
  else if value = "UAV" then .UAV
  else if value = "Space" then .Space
  else if value = "SurfaceEmergency" then .SurfaceEmergency
  else if value = "SurfaceService" then .SurfaceService
  else if value = "PointObstacle" then .PointObstacle
  else if value = "ClusterObstacle" then .ClusterObstacle
  else if value = "LineObstacle" then .LineObstacle
  else .NoInformation

/-- `impl Deserialize for AirCraftCategory`: same shape as
`PositionSource`'s. -/
def AirCraftCategory.deserialize : Json → DResult AirCraftCategory
  | .num n =>
    match n.as_u64 with
    | some v => .ok (AirCraftCategory.fromU8 (v % 256))
    | none => .error .panicked
  | .str s => .ok (AirCraftCategory.fromStr s)
  | _ => .error (.custom "expected a number")

/-- `from_value::<Option<AirCraftCategory>>`: null is `None`, otherwise
the category deserializer. -/
def parseCategoryOpt : Json → DResult (Option AirCraftCategory)
  | .null => .ok none
  | j => (AirCraftCategory.deserialize j).map some

/-! ### states.rs: `StateVector` and `States` -/

/-- `StateVector` of states.rs: floats are modelled as rationals, u64
timestamps as naturals. -/
structure StateVector where
  icao24 : String
  callsign : Option String
  origin_country : String
  time_position : Option ℕ
  last_contact : ℕ
  longitude : Option ℚ
  latitude : Option ℚ
  baro_altitude : Option ℚ
  on_ground : Bool
  velocity : Option ℚ
  true_track : Option ℚ
  vertical_rate : Option ℚ
  sensors : Option (List ℕ)
  geo_altitude : Option ℚ
  squawk : Option String
  spi : Bool
  position_source : PositionSource
  category : Option AirCraftCategory
deriving DecidableEq, Repr

/-- `impl From<Vec<Value>> for StateVector`: field `i` from `value[i]`
(indexing panics when out of bounds, `from_value(..).unwrap()` panics on a
wrong-typed element); `category` only when the length is exactly 18. -/
def StateVector.fromArr (value : List Json) : DResult StateVector := do
  let v0 ← indexPanic value 0
  let icao24 ← unwrapO (parseString v0)
  let v1 ← indexPanic value 1
  let callsign ← unwrapO (parseOpt parseString v1)
  let v2 ← indexPanic value 2
  let origin_country ← unwrapO (parseString v2)
  let v3 ← indexPanic value 3
  let time_position ← unwrapO (parseOpt parseU64 v3)
  let v4 ← indexPanic value 4
  let last_contact ← unwrapO (parseU64 v4)
  let v5 ← indexPanic value 5
  let longitude ← unwrapO (parseOpt parseF v5)
  let v6 ← indexPanic value 6
  let latitude ← unwrapO (parseOpt parseF v6)
  let v7 ← indexPanic value 7
  let baro_altitude ← unwrapO (parseOpt parseF v7)
  let v8 ← indexPanic value 8
  let on_ground ← unwrapO (parseBool v8)
  let v9 ← indexPanic value 9
  let velocity ← unwrapO (parseOpt parseF v9)
  let v10 ← indexPanic value 10
  let true_track ← unwrapO (parseOpt parseF v10)
  let v11 ← indexPanic value 11
  let vertical_rate ← unwrapO (parseOpt parseF v11)
  let v12 ← indexPanic value 12
  let sensors ← unwrapO (parseOpt (parseVec parseU64) v12)
  let v13 ← indexPanic value 13
  let geo_altitude ← unwrapO (parseOpt parseF v13)
  let v14 ← indexPanic value 14
  let squawk ← unwrapO (parseOpt parseString v14)
  let v15 ← indexPanic value 15
  let spi ← unwrapO (parseBool v15)
  let v16 ← indexPanic value 16
  let position_source ← unwrapE (PositionSource.deserialize v16)
  let category ←
    if value.length = 18 then do
      let v17 ← indexPanic value 17
      unwrapE (parseCategoryOpt v17)
    else pure none
  pure { icao24, callsign, origin_country, time_position, last_contact,
         longitude, latitude, baro_altitude, on_ground, velocity,
         true_track, vertical_rate, sensors, geo_altitude, squawk, spi,
         position_source, category }

/-- `impl From<Map<String, Value>> for StateVector`: every field from
`map.get(key).unwrap()` (panics when the key is missing) and
`from_value(..).unwrap()` (panics on a wrong-typed value). -/
def StateVector.fromObj (map : List (String × Json)) : DResult StateVector := do
  let v0 ← unwrapO (getEntry map "icao24")
  let icao24 ← unwrapO (parseString v0)
  let v1 ← unwrapO (getEntry map "callsign")
  let callsign ← unwrapO (parseOpt parseString v1)
  let v2 ← unwrapO (getEntry map "origin_country")
  let origin_country ← unwrapO (parseString v2)
  let v3 ← unwrapO (getEntry map "time_position")
  let time_position ← unwrapO (parseOpt parseU64 v3)
  let v4 ← unwrapO (getEntry map "last_contact")
  let last_contact ← unwrapO (parseU64 v4)
  let v5 ← unwrapO (getEntry map "longitude")
  let longitude ← unwrapO (parseOpt parseF v5)
  let v6 ← unwrapO (getEntry map "latitude")
  let latitude ← unwrapO (parseOpt parseF v6)
  let v7 ← unwrapO (getEntry map "baro_altitude")
  let baro_altitude ← unwrapO (parseOpt parseF v7)
  let v8 ← unwrapO (getEntry map "on_ground")
  let on_ground ← unwrapO (parseBool v8)
  let v9 ← unwrapO (getEntry map "velocity")
  let velocity ← unwrapO (parseOpt parseF v9)
  let v10 ← unwrapO (getEntry map "true_track")
  let true_track ← unwrapO (parseOpt parseF v10)
  let v11 ← unwrapO (getEntry map "vertical_rate")
  let vertical_rate ← unwrapO (parseOpt parseF v11)
  let v12 ← unwrapO (getEntry map "sensors")
  let sensors ← unwrapO (parseOpt (parseVec parseU64) v12)
  let v13 ← unwrapO (getEntry map "geo_altitude")
  let geo_altitude ← unwrapO (parseOpt parseF v13)
  let v14 ← unwrapO (getEntry map "squawk")
  let squawk ← unwrapO (parseOpt parseString v14)
  let v15 ← unwrapO (getEntry map "spi")
  let spi ← unwrapO (parseBool v15)
  let v16 ← unwrapO (getEntry map "position_source")
  let position_source ← unwrapE (PositionSource.deserialize v16)
  let v17 ← unwrapO (getEntry map "category")
  let category ← unwrapE (parseCategoryOpt v17)
  pure { icao24, callsign, origin_country, time_position, last_contact,
         longitude, latitude, baro_altitude, on_ground, velocity,
         true_track, vertical_rate, sensors, geo_altitude, squawk, spi,
         position_source, category }

/-- `impl Deserialize for StateVector`: array form, object form, or a
returned serde error. -/
def StateVector.deserialize : Json → DResult StateVector
  | .arr xs => StateVector.fromArr xs
  | .obj entries => StateVector.fromObj entries
  | _ => .error (.custom "expected an array")

/-- `Vec<T>` deserialization for element deserializers that can also
panic: first failure aborts, a panic stays a panic. -/
def decodeVector (d : Json → DResult α) : List Json → DResult (List α)
  | [] => .ok []
  | j :: rest => do
    let a ← d j
    let as ← decodeVector d rest
    pure (a :: as)

structure States where
  time : ℕ
  states : List StateVector
deriving DecidableEq, Repr

/-- `impl Deserialize for States`: `obj.get("time").unwrap().as_u64().unwrap()`
(each `unwrap` panics), then `states` is null (empty), an array of
state vectors, or a returned serde error. -/
def States.deserialize (j : Json) : DResult States := do
  let timeV ← unwrapO (j.get "time")
  let time ← unwrapO timeV.as_u64
  let statesV ← unwrapO (j.get "states")
  let states ←
    match statesV with
    | .null => pure []
    | .arr xs => decodeVector StateVector.deserialize xs
    | _ => Except.error (.custom "expected an array")
  pure { time, states }

/-! ### Canonical (derived `Serialize`) encoders -/

/-- Derived `Serialize` for `Option<T>`: `None` is null. -/
def serializeOpt (f : α → Json) : Option α → Json
  | none => .null
  | some a => f a

/-- A u64 serializes as an integer number token. -/
def serializeU (n : ℕ) : Json := .num (.posInt n)

/-- An f32/f64 serializes as a float number token (ryu printing
round-trips it exactly, so the rational is carried unchanged). -/
def serializeF (q : ℚ) : Json := .num (.float q)

/-- Derived `Serialize` for `PositionSource`: the variant name. -/
def PositionSource.serialize (ps : PositionSource) : Json :=
  .str ps.canonicalName

/-- Derived `Serialize` for `AirCraftCategory`: the variant name. -/
def AirCraftCategory.serialize (c : AirCraftCategory) : Json :=
  .str c.canonicalName

/-- Derived `Serialize` for `StateVector`: field-named object in
declaration order. -/
def StateVector.serialize (sv : StateVector) : Json :=
  .obj [("icao24", .str sv.icao24),
        ("callsign", serializeOpt Json.str sv.callsign),
        ("origin_country", .str sv.origin_country),
        ("time_position", serializeOpt serializeU sv.time_position),
        ("last_contact", serializeU sv.last_contact),
        ("longitude", serializeOpt serializeF sv.longitude),
        ("latitude", serializeOpt serializeF sv.latitude),
        ("baro_altitude", serializeOpt serializeF sv.baro_altitude),
        ("on_ground", .bool sv.on_ground),
        ("velocity", serializeOpt serializeF sv.velocity),
        ("true_track", serializeOpt serializeF sv.true_track),
        ("vertical_rate", serializeOpt serializeF sv.vertical_rate),
        ("sensors", serializeOpt (fun l => .arr (l.map serializeU)) sv.sensors),
        ("geo_altitude", serializeOpt serializeF sv.geo_altitude),
        ("squawk", serializeOpt Json.str sv.squawk),
        ("spi", .bool sv.spi),
        ("position_source", sv.position_source.serialize),
        ("category", serializeOpt AirCraftCategory.serialize sv.category)]

/-- Derived `Serialize` for `States`. -/
def States.serialize (s : States) : Json :=
  .obj [("time", serializeU s.time),
        ("states", .arr (s.states.map StateVector.serialize))]

/-! ### flights.rs: `Flight` and the response handling of
`FlightsRequest::send` -/

/-- The crate's error type (errors.rs), payloads reduced to what the
claims need: the carried HTTP status and an error message. -/
inductive Error where
  | reqwest (msg : String)
  | http (status : ℕ)
  | invalidString (msg : String)
  | invalidJson (msg : String)
deriving DecidableEq, Repr

structure Flight where
  icao24 : String
  first_seen : ℕ
  est_departure_airport : Option String
  last_seen : ℕ
  est_arrival_airport : Option String
  callsign : Option String
  est_departure_airport_horiz_distance : Option ℕ
  est_departure_airport_vert_distance : Option ℕ
  est_arrival_airport_horiz_distance : Option ℕ
  est_arrival_airport_vert_distance : Option ℕ
  departure_airport_candidates_count : ℕ
  arrival_airport_candidates_count : ℕ
deriving DecidableEq, Repr

/-- Field lookup for a derived struct with a `#[serde(alias = ..)]`:
the snake_case name or the camelCase alias. -/
def getAliased (m : List (String × Json)) (name alt : String) : Option Json :=
  match getEntry m name with
  | some v => some v
  | none => getEntry m alt

/-- An `Option` field of a derived struct: a missing key is `None`, a
present key must parse. -/
def fieldOpt (p : Json → Option α) : Option Json → Option (Option α)
  | none => some none
  | some v => parseOpt p v

/-- Derived `Deserialize` for `Flight` (serde aliases as in flights.rs):
typed errors only, no panics. -/
def Flight.deserialize : Json → Option Flight
  | .obj m => do
    let icao24 ← getEntry m "icao24" >>= parseString
    let first_seen ← getAliased m "first_seen" "firstSeen" >>= parseU64
    let est_departure_airport ←
      fieldOpt parseString (getAliased m "est_departure_airport" "estDepartureAirport")
    let last_seen ← getAliased m "last_seen" "lastSeen" >>= parseU64
    let est_arrival_airport ←
      fieldOpt parseString (getAliased m "est_arrival_airport" "estArrivalAirport")
    let callsign ← fieldOpt parseString (getEntry m "callsign")
    let est_departure_airport_horiz_distance ←
      fieldOpt parseU32 (getAliased m "est_departure_airport_horiz_distance"
        "estDepartureAirportHorizDistance")
    let est_departure_airport_vert_distance ←
      fieldOpt parseU32 (getAliased m "est_departure_airport_vert_distance"
        "estDepartureAirportVertDistance")
    let est_arrival_airport_horiz_distance ←
      fieldOpt parseU32 (getAliased m "est_arrival_airport_horiz_distance"
        "estArrivalAirportHorizDistance")
    let est_arrival_airport_vert_distance ←
      fieldOpt parseU32 (getAliased m "est_arrival_airport_vert_distance"
        "estArrivalAirportVertDistance")
    let departure_airport_candidates_count ←
      getAliased m "departure_airport_candidates_count"
        "departureAirportCandidatesCount" >>= parseU16
    let arrival_airport_candidates_count ←
      getAliased m "arrival_airport_candidates_count"
        "arrivalAirportCandidatesCount" >>= parseU16
    pure { icao24, first_seen, est_departure_airport, last_seen,
           est_arrival_airport, callsign,
           est_departure_airport_horiz_distance,
           est_departure_airport_vert_distance,
           est_arrival_airport_horiz_distance,
           est_arrival_airport_vert_distance,
           departure_airport_candidates_count,
           arrival_airport_candidates_count }
  | _ => none

/-- Derived `Serialize` for `Flight`: field-named object in declaration
order (serde aliases only affect deserialization). -/
def Flight.serialize (f : Flight) : Json :=
  .obj [("icao24", .str f.icao24),
        ("first_seen", serializeU f.first_seen),
        ("est_departure_airport", serializeOpt Json.str f.est_departure_airport),
        ("last_seen", serializeU f.last_seen),
        ("est_arrival_airport", serializeOpt Json.str f.est_arrival_airport),
        ("callsign", serializeOpt Json.str f.callsign),
        ("est_departure_airport_horiz_distance",
          serializeOpt serializeU f.est_departure_airport_horiz_distance),
        ("est_departure_airport_vert_distance",
          serializeOpt serializeU f.est_departure_airport_vert_distance),
        ("est_arrival_airport_horiz_distance",
          serializeOpt serializeU f.est_arrival_airport_horiz_distance),
        ("est_arrival_airport_vert_distance",
          serializeOpt serializeU f.est_arrival_airport_vert_distance),
        ("departure_airport_candidates_count",
          serializeU f.departure_airport_candidates_count),
        ("arrival_airport_candidates_count",
          serializeU f.arrival_airport_candidates_count)]

/-- The machine-integer ranges a `Flight` wire value can carry (u32
distances, u16 counts): the domain of the round-trip law. -/
def Flight.wf (f : Flight) : Prop :=
  (∀ d, f.est_departure_airport_horiz_distance = some d → d ≤ 4294967295) ∧
  (∀ d, f.est_departure_airport_vert_distance = some d → d ≤ 4294967295) ∧
  (∀ d, f.est_arrival_airport_horiz_distance = some d → d ≤ 4294967295) ∧
  (∀ d, f.est_arrival_airport_vert_distance = some d → d ≤ 4294967295) ∧
  f.departure_airport_candidates_count ≤ 65535 ∧
  f.arrival_airport_candidates_count ≤ 65535

/-- The response handling of `FlightsRequest::send` (flights.rs): status
OK decodes the body as `Vec<Flight>` (any serde error is returned as
`Error::InvalidJson`), status NOT_FOUND is an empty collection, any other
status is `Error::Http(status)` with the body untouched. -/
def FlightsRequest.handleResponse (status : ℕ) (body : Json) :
    Except Error (List Flight) :=
  if status = 200 then
    match parseVec Flight.deserialize body with
    | some flights => .ok flights
    | none => .error (.invalidJson "parse error")
  else if status = 404 then .ok []
  else .error (.http status)

/-! ### tracks.rs: `Waypoint` and `FlightTrack` -/

structure Waypoint where
  time : ℕ
  latitude : Option ℚ
  longitude : Option ℚ
  baro_altitude : Option ℚ
  true_track : Option ℚ
  on_ground : Bool
deriving DecidableEq, Repr

/-- `impl From<Vec<Value>> for Waypoint`: `value[i]` indexing panics when
out of bounds; `time`/`on_ground` unwrap their conversion (panic on wrong
type), the four `as_f64()` fields silently become `None` on a wrong-typed
element. -/
def Waypoint.fromArr (value : List Json) : DResult Waypoint := do
  let v0 ← indexPanic value 0
  let time ← unwrapO v0.as_u64
  let v1 ← indexPanic value 1
  let latitude := v1.as_f64
  let v2 ← indexPanic value 2
  let longitude := v2.as_f64
  let v3 ← indexPanic value 3
  let baro_altitude := v3.as_f64
  let v4 ← indexPanic value 4
  let true_track := v4.as_f64
  let v5 ← indexPanic value 5
  let on_ground ← unwrapO v5.as_bool
  pure { time, latitude, longitude, baro_altitude, true_track, on_ground }

/-- `impl From<Map<String, Value>> for Waypoint`: `value[key]` indexing
panics when the key is missing; conversions as in the array form. -/
def Waypoint.fromObj (value : List (String × Json)) : DResult Waypoint := do
  let v0 ← unwrapO (getEntry value "time")
  let time ← unwrapO v0.as_u64
  let v1 ← unwrapO (getEntry value "latitude")
  let latitude := v1.as_f64
  let v2 ← unwrapO (getEntry value "longitude")
  let longitude := v2.as_f64
  let v3 ← unwrapO (getEntry value "baro_altitude")
  let baro_altitude := v3.as_f64
  let v4 ← unwrapO (getEntry value "true_track")
  let true_track := v4.as_f64
  let v5 ← unwrapO (getEntry value "on_ground")
  let on_ground ← unwrapO v5.as_bool
  pure { time, latitude, longitude, baro_altitude, true_track, on_ground }

/-- `impl Deserialize for Waypoint`: array form, object form, or a
returned serde error. -/
def Waypoint.deserialize : Json → DResult Waypoint
  | .arr xs => Waypoint.fromArr xs
  | .obj entries => Waypoint.fromObj entries
  | _ => .error (.custom "expected array")

/-- `Waypoint`'s derived `Serialize`: field-named object in declaration
order. -/
def Waypoint.serialize (w : Waypoint) : Json :=
  .obj [("time", serializeU w.time),
        ("latitude", serializeOpt serializeF w.latitude),
        ("longitude", serializeOpt serializeF w.longitude),
        ("baro_altitude", serializeOpt serializeF w.baro_altitude),
        ("true_track", serializeOpt serializeF w.true_track),
        ("on_ground", .bool w.on_ground)]

/-- A derived-struct field conversion lifted into `DResult`: failure is a
returned serde error, never a panic. -/
def unwrapC : Option α → DResult α
  | some a => .ok a
  | none => .error (.custom "invalid field")

structure FlightTrack where
  icao24 : String
  start_time : ℚ
  end_time : ℚ
  callsign : Option String
  path : List Waypoint
deriving DecidableEq, Repr

/-- Derived `Deserialize` for `FlightTrack` (aliases `startTime`/`endTime`):
required fields error when missing, the `path` elements go through
`Waypoint`'s custom deserializer (which can panic). -/
def FlightTrack.deserialize : Json → DResult FlightTrack
  | .obj m => do
    let icao24 ← unwrapC (getEntry m "icao24" >>= parseString)
    let start_time ← unwrapC (getAliased m "start_time" "startTime" >>= parseF)
    let end_time ← unwrapC (getAliased m "end_time" "endTime" >>= parseF)
    let callsign ← unwrapC (fieldOpt parseString (getEntry m "callsign"))
    let path ←
      match getEntry m "path" with
      | some (.arr xs) => decodeVector Waypoint.deserialize xs
      | _ => Except.error (.custom "invalid path")
    pure { icao24, start_time, end_time, callsign, path }
  | _ => .error (.custom "expected a map")

/-- Derived `Serialize` for `FlightTrack`. -/
def FlightTrack.serialize (t : FlightTrack) : Json :=
  .obj [("icao24", .str t.icao24),
        ("start_time", serializeF t.start_time),
        ("end_time", serializeF t.end_time),
        ("callsign", serializeOpt Json.str t.callsign),
        ("path", .arr (t.path.map Waypoint.serialize))]

end Opensky

/-!
### lib.rs: the historical snapshot module with the long/short
schema-fallback decode used by its `StateRequest::send`.
-/

namespace Opensky.Lib

open Opensky

/-- lib.rs `InnerStateVector`: the 18-element positional tuple struct
(derived `Deserialize` on a tuple requires exactly 18 elements). -/
structure InnerStateVector where
  f0 : String
  f1 : Option String
  f2 : String
  f3 : Option ℕ
  f4 : ℕ
  f5 : Option ℚ
  f6 : Option ℚ
  f7 : Option ℚ
  f8 : Bool
  f9 : Option ℚ
  f10 : Option ℚ
  f11 : Option ℚ
  f12 : Option (List ℕ)
  f13 : Option ℚ
  f14 : Option String
  f15 : Bool
  f16 : ℕ
  f17 : ℕ
deriving DecidableEq, Repr

/-- lib.rs `ShortInnerStateVector`: the 17-element tuple struct (no
trailing u32). -/
structure ShortInnerStateVector where
  f0 : String
  f1 : Option String
  f2 : String
  f3 : Option ℕ
  f4 : ℕ
  f5 : Option ℚ
  f6 : Option ℚ
  f7 : Option ℚ
  f8 : Bool
  f9 : Option ℚ
  f10 : Option ℚ
  f11 : Option ℚ
  f12 : Option (List ℕ)
  f13 : Option ℚ
  f14 : Option String
  f15 : Bool
  f16 : ℕ
deriving DecidableEq, Repr

/-- Derived `Deserialize` of the 18-tuple: an array of exactly 18
elements, each of its expected type (`f16` is a u8, `f17` a u32). -/
def parseInnerStateVector : Json → Option InnerStateVector
  | .arr [a0, a1, a2, a3, a4, a5, a6, a7, a8, a9, a10, a11, a12, a13, a14,
          a15, a16, a17] =>
    (match parseString a0 with
     | none => none
     | some f0 =>
      match parseOpt parseString a1 with
      | none => none
      | some f1 =>
       match parseString a2 with
       | none => none
       | some f2 =>
        match parseOpt parseU64 a3 with
        | none => none
        | some f3 =>
         match parseU64 a4 with
         | none => none
         | some f4 =>
          match parseOpt parseF a5 with
          | none => none
          | some f5 =>
           match parseOpt parseF a6 with
           | none => none
           | some f6 =>
            match parseOpt parseF a7 with
            | none => none
            | some f7 =>
             match parseBool a8 with
             | none => none
             | some f8 =>
              match parseOpt parseF a9 with
              | none => none
              | some f9 =>
               match parseOpt parseF a10 with
               | none => none
               | some f10 =>
                match parseOpt parseF a11 with
                | none => none
                | some f11 =>
                 match parseOpt (parseVec parseU64) a12 with
                 | none => none
                 | some f12 =>
                  match parseOpt parseF a13 with
                  | none => none
                  | some f13 =>
                   match parseOpt parseString a14 with
                   | none => none
                   | some f14 =>
                    match parseBool a15 with
                    | none => none
                    | some f15 =>
                     match parseU8 a16 with
                     | none => none
                     | some f16 =>
                      match parseU32 a17 with
                      | none => none
                      | some f17 =>
                       some { f0, f1, f2, f3, f4, f5, f6, f7, f8, f9, f10,
                              f11, f12, f13, f14, f15, f16, f17 })
  | _ => none

/-- Derived `Deserialize` of the 17-tuple: an array of exactly 17
elements. -/
def parseShortInnerStateVector : Json → Option ShortInnerStateVector
  | .arr [a0, a1, a2, a3, a4, a5, a6, a7, a8, a9, a10, a11, a12, a13, a14,
          a15, a16] =>
    (match parseString a0 with
     | none => none
     | some f0 =>
      match parseOpt parseString a1 with
      | none => none
      | some f1 =>
       match parseString a2 with
       | none => none
       | some f2 =>
        match parseOpt parseU64 a3 with
        | none => none
        | some f3 =>
         match parseU64 a4 with
         | none => none
         | some f4 =>
          match parseOpt parseF a5 with
          | none => none
          | some f5 =>
           match parseOpt parseF a6 with
           | none => none
           | some f6 =>
            match parseOpt parseF a7 with
            | none => none
            | some f7 =>
             match parseBool a8 with
             | none => none
             | some f8 =>
              match parseOpt parseF a9 with
              | none => none
              | some f9 =>
               match parseOpt parseF a10 with
               | none => none
               | some f10 =>
                match parseOpt parseF a11 with
                | none => none
                | some f11 =>
                 match parseOpt (parseVec parseU64) a12 with
                 | none => none
                 | some f12 =>
                  match parseOpt parseF a13 with
                  | none => none
                  | some f13 =>
                   match parseOpt parseString a14 with
                   | none => none
                   | some f14 =>
                    match parseBool a15 with
                    | none => none
                    | some f15 =>
                     match parseU8 a16 with
                     | none => none
                     | some f16 =>
                      some { f0, f1, f2, f3, f4, f5, f6, f7, f8, f9, f10,
                             f11, f12, f13, f14, f15, f16 })
  | _ => none

structure InnerOpenSkyStates where
  time : ℕ
  states : List InnerStateVector
deriving DecidableEq, Repr

structure ShortInnerOpenSkyStates where
  time : ℕ
  states : List ShortInnerStateVector
deriving DecidableEq, Repr

/-- Derived `Deserialize` for `InnerOpenSkyStates` (long form): a map
with a u64 `time` and a `Vec<InnerStateVector>` `states` (null is not
tolerated by the derived `Vec`). -/
def parseInnerStates : Json → Option InnerOpenSkyStates
  | .obj m => do
    let time ← getEntry m "time" >>= parseU64
    let sv ← getEntry m "states"
    let states ← parseVec parseInnerStateVector sv
    pure { time, states }
  | _ => none

/-- Derived `Deserialize` for `ShortInnerOpenSkyStates` (short form). -/
def parseShortInnerStates : Json → Option ShortInnerOpenSkyStates
  | .obj m => do
    let time ← getEntry m "time" >>= parseU64
    let sv ← getEntry m "states"
    let states ← parseVec parseShortInnerStateVector sv
    pure { time, states }
  | _ => none

/-- lib.rs public `StateVector` (`position_source` still a raw u8, plus
the undocumented trailing u32). -/
structure StateVector where
  icao24 : String
  callsign : Option String
  origin_country : String
  time_position : Option ℕ
  last_contact : ℕ
  longitude : Option ℚ
  latitude : Option ℚ
  baro_altitude : Option ℚ
  on_ground : Bool
  velocity : Option ℚ
  true_track : Option ℚ
  vertical_rate : Option ℚ
  sensors : Option (List ℕ)
  geo_altitude : Option ℚ
  squawk : Option String
  spi : Bool
  position_source : ℕ
  undocumented : Option ℕ
deriving DecidableEq, Repr

/-- `StateVector::from_inner`. -/
def StateVector.from_inner (isv : InnerStateVector) : StateVector :=
  { icao24 := isv.f0, callsign := isv.f1, origin_country := isv.f2,
    time_position := isv.f3, last_contact := isv.f4, longitude := isv.f5,
    latitude := isv.f6, baro_altitude := isv.f7, on_ground := isv.f8,
    velocity := isv.f9, true_track := isv.f10, vertical_rate := isv.f11,
    sensors := isv.f12, geo_altitude := isv.f13, squawk := isv.f14,
    spi := isv.f15, position_source := isv.f16,
    undocumented := some isv.f17 }

/-- `StateVector::from_short_inner`. -/
def StateVector.from_short_inner (isv : ShortInnerStateVector) : StateVector :=
  { icao24 := isv.f0, callsign := isv.f1, origin_country := isv.f2,
    time_position := isv.f3, last_contact := isv.f4, longitude := isv.f5,
    latitude := isv.f6, baro_altitude := isv.f7, on_ground := isv.f8,
    velocity := isv.f9, true_track := isv.f10, vertical_rate := isv.f11,
    sensors := isv.f12, geo_altitude := isv.f13, squawk := isv.f14,
    spi := isv.f15, position_source := isv.f16, undocumented := none }

structure OpenSkyStates where
  time : ℕ
  states : List StateVector
deriving DecidableEq, Repr

/-- `OpenSkyStates::from_inner`. -/
def OpenSkyStates.from_inner (inner : InnerOpenSkyStates) : OpenSkyStates :=
  { time := inner.time,
    states := inner.states.map StateVector.from_inner }

/-- `OpenSkyStates::from_short_inner`. -/
def OpenSkyStates.from_short_inner (inner : ShortInnerOpenSkyStates) :
    OpenSkyStates :=
  { time := inner.time,
    states := inner.states.map StateVector.from_short_inner }

/-- The OK-body decoding of lib.rs `StateRequest::send` (lines 393-416):
with `self.time` pinned the short form is parsed directly and its failure
returned; with no time pinned the long form is tried first, and only on
its failure the short form is tried on the same bytes. -/
def StateRequest.decodeStates (time : Option ℕ) (body : Json) :
    Except Error OpenSkyStates :=
  if time.isSome then
    match parseShortInnerStates body with
    | some s => .ok (OpenSkyStates.from_short_inner s)
    | none => .error (.invalidJson "short form parse failed")
  else
    match parseInnerStates body with
    | some s => .ok (OpenSkyStates.from_inner s)
    | none =>
      match parseShortInnerStates body with
      | some s => .ok (OpenSkyStates.from_short_inner s)
      | none => .error (.invalidJson "short form parse failed")

end Opensky.Lib

namespace Opensky

/-!
### Concrete fixtures (the wire snapshot of tests/api.rs `serde_states`)
-/

/-- The 18-element positional state-vector array of the fixture body. -/
def fixtureArr : List Json :=
  [.str "3c6444", .str "DLH9LF  ", .str "Germany",
   .num (.posInt 1458564120), .num (.posInt 1458564120),
   .num (.float 6.1546), .num (.float 50.1964), .num (.float 9639.3),
   .bool false, .num (.float 232.88), .num (.float 98.26),
   .num (.float 4.55), .null, .num (.float 9547.86), .str "1000",
   .bool false, .num (.posInt 0), .null]

/-- The fixture response body (array form, one state vector). -/
def fixtureBody : Json :=
  .obj [("time", .num (.posInt 1458564121)),
        ("states", .arr [.arr fixtureArr])]

/-- The typed record the fixture decodes to. -/
def fixtureVector : StateVector :=
  { icao24 := "3c6444", callsign := some "DLH9LF  ",
    origin_country := "Germany", time_position := some 1458564120,
    last_contact := 1458564120, longitude := some 6.1546,
    latitude := some 50.1964, baro_altitude := some 9639.3,
    on_ground := false, velocity := some 232.88,
    true_track := some 98.26, vertical_rate := some 4.55,
    sensors := none, geo_altitude := some 9547.86,
    squawk := some "1000", spi := false,
    position_source := .ADSB, category := none }

/-- The canonical object-form entries of the fixture vector (the literal
of tests/api.rs, field-named and in declaration order). -/
def fixtureEntries : List (String × Json) :=
  [("icao24", .str "3c6444"),
   ("callsign", .str "DLH9LF  "),
   ("origin_country", .str "Germany"),
   ("time_position", .num (.posInt 1458564120)),
   ("last_contact", .num (.posInt 1458564120)),
   ("longitude", .num (.float 6.1546)),
   ("latitude", .num (.float 50.1964)),
   ("baro_altitude", .num (.float 9639.3)),
   ("on_ground", .bool false),
   ("velocity", .num (.float 232.88)),
   ("true_track", .num (.float 98.26)),
   ("vertical_rate", .num (.float 4.55)),
   ("sensors", .null),
   ("geo_altitude", .num (.float 9547.86)),
   ("squawk", .str "1000"),
   ("spi", .bool false),
   ("position_source", .str "ADSB"),
   ("category", .null)]

/-- The exact canonical JSON literal asserted by tests/api.rs. -/
def fixtureCanonical : Json :=
  .obj [("time", .num (.posInt 1458564121)),
        ("states", .arr [.obj fixtureEntries])]

/-- A 17-element state-vector array in the short (category-less) wire
form, with mostly-null optionals. -/
def shortArr : List Json :=
  [.str "abc123", .null, .str "Germany", .null, .num (.posInt 5),
   .null, .null, .null, .bool false, .null, .null, .null, .null, .null,
   .null, .bool true, .num (.posInt 0)]

/-- A response body that only the short (17-element) form parses. -/
def shortBody : Json :=
  .obj [("time", .num (.posInt 10)), ("states", .arr [.arr shortArr])]

/-- All 18 field keys of the object form of a `StateVector` are present
in an entry list (including the keys of the optional fields). -/
def allKeysPresent (m : List (String × Json)) : Prop :=
  (getEntry m "icao24").isSome ∧ (getEntry m "callsign").isSome ∧
  (getEntry m "origin_country").isSome ∧ (getEntry m "time_position").isSome ∧
  (getEntry m "last_contact").isSome ∧ (getEntry m "longitude").isSome ∧
  (getEntry m "latitude").isSome ∧ (getEntry m "baro_altitude").isSome ∧
  (getEntry m "on_ground").isSome ∧ (getEntry m "velocity").isSome ∧
  (getEntry m "true_track").isSome ∧ (getEntry m "vertical_rate").isSome ∧
  (getEntry m "sensors").isSome ∧ (getEntry m "geo_altitude").isSome ∧
  (getEntry m "squawk").isSome ∧ (getEntry m "spi").isSome ∧
  (getEntry m "position_source").isSome ∧ (getEntry m "category").isSome

/-- The object form a positional state-vector array is equivalent to:
key `i` bound to element `i` (a missing 18th element becomes a null
`category`, absence on the wire). -/
def svObjOf (vs : List Json) : List (String × Json) :=
  [("icao24", vs.getD 0 .null), ("callsign", vs.getD 1 .null),
   ("origin_country", vs.getD 2 .null), ("time_position", vs.getD 3 .null),
   ("last_contact", vs.getD 4 .null), ("longitude", vs.getD 5 .null),
   ("latitude", vs.getD 6 .null), ("baro_altitude", vs.getD 7 .null),
   ("on_ground", vs.getD 8 .null), ("velocity", vs.getD 9 .null),
   ("true_track", vs.getD 10 .null), ("vertical_rate", vs.getD 11 .null),
   ("sensors", vs.getD 12 .null), ("geo_altitude", vs.getD 13 .null),
   ("squawk", vs.getD 14 .null), ("spi", vs.getD 15 .null),
   ("position_source", vs.getD 16 .null), ("category", vs.getD 17 .null)]

/-- The object form a positional waypoint array is equivalent to. -/
def wpObjOf (vs : List Json) : List (String × Json) :=
  [("time", vs.getD 0 .null), ("latitude", vs.getD 1 .null),
   ("longitude", vs.getD 2 .null), ("baro_altitude", vs.getD 3 .null),
   ("true_track", vs.getD 4 .null), ("on_ground", vs.getD 5 .null)]

/-!
## Helper lemmas
-/

theorem dbind_ok {α β : Type} {x : DResult α} {f : α → DResult β} {b : β} :
    x >>= f = .ok b ↔ ∃ a, x = .ok a ∧ f a = .ok b := by
  cases x <;> simp [Bind.bind, Except.bind]

theorem ok_bind {α β : Type} (a : α) (f : α → DResult β) :
    (Except.ok a : DResult α) >>= f = f a := rfl

theorem dpure {α : Type} (a : α) : (pure a : DResult α) = .ok a := rfl

theorem dpure_ok {α : Type} {a b : α} :
    (pure a : DResult α) = .ok b ↔ a = b := by
  constructor
  · intro h
    exact (Except.ok.injEq a b).mp h
  · intro h
    rw [h]
    rfl

theorem unwrapO_some {α : Type} (a : α) : unwrapO (some a) = .ok a := rfl

theorem unwrapO_ok {α : Type} {o : Option α} {a : α} :
    unwrapO o = .ok a ↔ o = some a := by
  cases o <;> simp [unwrapO]

theorem unwrapE_ok {α : Type} {x : DResult α} {a : α} :
    unwrapE x = .ok a ↔ x = .ok a := by
  cases x <;> simp [unwrapE]

theorem unwrapE_of_ok {α : Type} (a : α) :
    unwrapE (Except.ok a : DResult α) = .ok a := rfl

theorem unwrapC_ok {α : Type} {o : Option α} {a : α} :
    unwrapC o = .ok a ↔ o = some a := by
  cases o <;> simp [unwrapC]

theorem indexPanic_ok {vs : List Json} {i : ℕ} {v : Json} :
    indexPanic vs i = .ok v ↔ vs.get? i = some v := by
  simp [indexPanic, unwrapO_ok]

theorem get?_some_lt {α : Type} :
    ∀ (l : List α) (n : ℕ) (a : α), l.get? n = some a → n < l.length := by
  intro l
  induction l with
  | nil => intro n a h; cases h
  | cons x xs ih =>
    intro n a h
    cases n with
    | zero => simp
    | succ m => exact Nat.succ_lt_succ (ih m a h)

theorem getD_of_get? {α : Type} {l : List α} {n : ℕ} {a d : α}
    (h : l.get? n = some a) : l.getD n d = a := by
  rw [List.getD, h]
  rfl

/-! Round-trip evaluation lemmas: each decoder inverts the matching
canonical encoder. -/

theorem parseOpt_str (o : Option String) :
    parseOpt parseString (serializeOpt Json.str o) = some o := by
  cases o <;> rfl

theorem parseOpt_u64 (o : Option ℕ) :
    parseOpt parseU64 (serializeOpt serializeU o) = some o := by
  cases o <;> rfl

theorem parseOpt_f (o : Option ℚ) :
    parseOpt parseF (serializeOpt serializeF o) = some o := by
  cases o <;> rfl

theorem parseList_serializeU (l : List ℕ) :
    parseList parseU64 (l.map serializeU) = some l := by
  induction l with
  | nil => rfl
  | cons a t ih => simp [parseList, parseU64, serializeU, ih]

theorem parseOpt_sensors (o : Option (List ℕ)) :
    parseOpt (parseVec parseU64)
      (serializeOpt (fun l => .arr (l.map serializeU)) o) = some o := by
  cases o with
  | none => rfl
  | some l => simp [parseOpt, serializeOpt, parseVec, parseList_serializeU]

theorem ps_deserialize_serialize (ps : PositionSource) :
    PositionSource.deserialize ps.serialize = .ok ps := by
  cases ps <;> rfl

theorem cat_deserialize_serialize (c : Option AirCraftCategory) :
    parseCategoryOpt (serializeOpt AirCraftCategory.serialize c) = .ok c := by
  cases c with
  | none => rfl
  | some c => cases c <;> rfl

theorem asf_serializeOpt (o : Option ℚ) :
    (serializeOpt serializeF o).as_f64 = o := by
  cases o <;> rfl

theorem stateVector_serialize_roundTrip (sv : StateVector) :
    StateVector.deserialize sv.serialize = .ok sv := by
  cases sv
  simp [StateVector.serialize, StateVector.deserialize, StateVector.fromObj,
        getEntry, unwrapO_some, ok_bind, dpure, unwrapE_of_ok,
        parseOpt_str, parseOpt_u64, parseOpt_f, parseOpt_sensors,
        ps_deserialize_serialize, cat_deserialize_serialize,
        unwrapO, parseString, parseU64, parseBool, serializeU]

theorem decodeVector_map {α : Type} (d : Json → DResult α) (enc : α → Json)
    (h : ∀ a, d (enc a) = .ok a) (l : List α) :
    decodeVector d (l.map enc) = .ok l := by
  induction l with
  | nil => rfl
  | cons a t ih => simp [decodeVector, h, ih, ok_bind, dpure]

theorem states_serialize_roundTrip (s : States) :
    States.deserialize s.serialize = .ok s := by
  cases s
  simp [States.serialize, States.deserialize, Json.get, getEntry,
        serializeU, Json.as_u64, JNum.as_u64, unwrapO_some, ok_bind, dpure,
        decodeVector_map StateVector.deserialize StateVector.serialize
          stateVector_serialize_roundTrip]

theorem waypoint_serialize_roundTrip (w : Waypoint) :
    Waypoint.deserialize w.serialize = .ok w := by
  cases w
  simp [Waypoint.serialize, Waypoint.deserialize, Waypoint.fromObj,
        getEntry, unwrapO_some, ok_bind, dpure, asf_serializeOpt,
        serializeU, Json.as_u64, JNum.as_u64, Json.as_bool]

theorem flightTrack_serialize_roundTrip (t : FlightTrack) :
    FlightTrack.deserialize t.serialize = .ok t := by
  cases t
  simp [FlightTrack.serialize, FlightTrack.deserialize, getEntry,
        getAliased, fieldOpt, unwrapC, ok_bind, dpure, parseOpt_str,
        parseF, serializeF, parseString, JNum.as_f64,
        decodeVector_map Waypoint.deserialize Waypoint.serialize
          waypoint_serialize_roundTrip]

theorem parseOpt_u32 {o : Option ℕ} (h : ∀ d, o = some d → d ≤ 4294967295) :
    parseOpt parseU32 (serializeOpt serializeU o) = some o := by
  cases o with
  | none => rfl
  | some d => simp [parseOpt, serializeOpt, serializeU, parseU32, h d rfl]

theorem flight_serialize_roundTrip (f : Flight) (hwf : f.wf) :
    Flight.deserialize f.serialize = some f := by
  obtain ⟨h1, h2, h3, h4, h5, h6⟩ := hwf
  have e1 := parseOpt_u32 h1
  have e2 := parseOpt_u32 h2
  have e3 := parseOpt_u32 h3
  have e4 := parseOpt_u32 h4
  cases f
  simp only [Flight.wf] at h5 h6
  simp [Flight.serialize, Flight.deserialize, getEntry, getAliased,
        fieldOpt, parseOpt_str, parseString, parseU64, parseU16,
        serializeU, e1, e2, e3, e4, h5, h6]

theorem error_bind {α β : Type} (e : DError) (f : α → DResult β) :
    (Except.error e : DResult α) >>= f = .error e := rfl

/-- Inversion of the `From<Map>` object-form conversion: success pins
every one of the 18 keys. -/
theorem sv_fromObj_keys {m : List (String × Json)} {R : StateVector}
    (h : StateVector.fromObj m = .ok R) : allKeysPresent m := by
  simp only [StateVector.fromObj, dbind_ok, unwrapO_ok, unwrapE_ok, dpure_ok] at h
  obtain ⟨v0, k0, x0, p0, v1, k1, x1, p1, v2, k2, x2, p2, v3, k3, x3, p3,
    v4, k4, x4, p4, v5, k5, x5, p5, v6, k6, x6, p6, v7, k7, x7, p7,
    v8, k8, x8, p8, v9, k9, x9, p9, v10, k10, x10, p10, v11, k11, x11, p11,
    v12, k12, x12, p12, v13, k13, x13, p13, v14, k14, x14, p14,
    v15, k15, x15, p15, v16, k16, x16, p16, v17, k17, x17, p17, hfin⟩ := h
  simp [allKeysPresent, k0, k1, k2, k3, k4, k5, k6, k7, k8, k9, k10, k11,
        k12, k13, k14, k15, k16, k17]

/-- Inversion of the `From<Vec>` array-form conversion: success pins every
positional element's parse, and the category exactly from element 17 of a
length-18 array (`none` for every other length). -/
theorem sv_fromArr_inv {vs : List Json} {R : StateVector}
    (h : StateVector.fromArr vs = .ok R) :
    (∃ v, vs.get? 0 = some v ∧ parseString v = some R.icao24) ∧
    (∃ v, vs.get? 1 = some v ∧ parseOpt parseString v = some R.callsign) ∧
    (∃ v, vs.get? 2 = some v ∧ parseString v = some R.origin_country) ∧
    (∃ v, vs.get? 3 = some v ∧ parseOpt parseU64 v = some R.time_position) ∧
    (∃ v, vs.get? 4 = some v ∧ parseU64 v = some R.last_contact) ∧
    (∃ v, vs.get? 5 = some v ∧ parseOpt parseF v = some R.longitude) ∧
    (∃ v, vs.get? 6 = some v ∧ parseOpt parseF v = some R.latitude) ∧
    (∃ v, vs.get? 7 = some v ∧ parseOpt parseF v = some R.baro_altitude) ∧
    (∃ v, vs.get? 8 = some v ∧ parseBool v = some R.on_ground) ∧
    (∃ v, vs.get? 9 = some v ∧ parseOpt parseF v = some R.velocity) ∧
    (∃ v, vs.get? 10 = some v ∧ parseOpt parseF v = some R.true_track) ∧
    (∃ v, vs.get? 11 = some v ∧ parseOpt parseF v = some R.vertical_rate) ∧
    (∃ v, vs.get? 12 = some v ∧ parseOpt (parseVec parseU64) v = some R.sensors) ∧
    (∃ v, vs.get? 13 = some v ∧ parseOpt parseF v = some R.geo_altitude) ∧
    (∃ v, vs.get? 14 = some v ∧ parseOpt parseString v = some R.squawk) ∧
    (∃ v, vs.get? 15 = some v ∧ parseBool v = some R.spi) ∧
    (∃ v, vs.get? 16 = some v ∧
      PositionSource.deserialize v = .ok R.position_source) ∧
    ((vs.length = 18 ∧ ∃ v, vs.get? 17 = some v ∧
        parseCategoryOpt v = .ok R.category) ∨
      (vs.length ≠ 18 ∧ R.category = none)) := by
  simp only [StateVector.fromArr, dbind_ok, unwrapO_ok, unwrapE_ok,
             indexPanic_ok, dpure_ok] at h
  obtain ⟨v0, k0, x0, p0, v1, k1, x1, p1, v2, k2, x2, p2, v3, k3, x3, p3,
    v4, k4, x4, p4, v5, k5, x5, p5, v6, k6, x6, p6, v7, k7, x7, p7,
    v8, k8, x8, p8, v9, k9, x9, p9, v10, k10, x10, p10, v11, k11, x11, p11,
    v12, k12, x12, p12, v13, k13, x13, p13, v14, k14, x14, p14,
    v15, k15, x15, p15, v16, k16, x16, p16, hc⟩ := h
  by_cases hlen : vs.length = 18
  · rw [if_pos hlen] at hc
    simp only [dbind_ok, unwrapE_ok, indexPanic_ok, dpure, ok_bind,
               dpure_ok] at hc
    obtain ⟨v17, k17, c, pc, hfin⟩ := hc
    injection hfin with hR
    subst hR
    exact ⟨⟨v0, k0, p0⟩, ⟨v1, k1, p1⟩, ⟨v2, k2, p2⟩, ⟨v3, k3, p3⟩,
      ⟨v4, k4, p4⟩, ⟨v5, k5, p5⟩, ⟨v6, k6, p6⟩, ⟨v7, k7, p7⟩,
      ⟨v8, k8, p8⟩, ⟨v9, k9, p9⟩, ⟨v10, k10, p10⟩, ⟨v11, k11, p11⟩,
      ⟨v12, k12, p12⟩, ⟨v13, k13, p13⟩, ⟨v14, k14, p14⟩, ⟨v15, k15, p15⟩,
      ⟨v16, k16, p16⟩, Or.inl ⟨hlen, v17, k17, pc⟩⟩
  · rw [if_neg hlen] at hc
    simp only [dpure, ok_bind, dpure_ok] at hc
    injection hc with hR
    subst hR
    exact ⟨⟨v0, k0, p0⟩, ⟨v1, k1, p1⟩, ⟨v2, k2, p2⟩, ⟨v3, k3, p3⟩,
      ⟨v4, k4, p4⟩, ⟨v5, k5, p5⟩, ⟨v6, k6, p6⟩, ⟨v7, k7, p7⟩,
      ⟨v8, k8, p8⟩, ⟨v9, k9, p9⟩, ⟨v10, k10, p10⟩, ⟨v11, k11, p11⟩,
      ⟨v12, k12, p12⟩, ⟨v13, k13, p13⟩, ⟨v14, k14, p14⟩, ⟨v15, k15, p15⟩,
      ⟨v16, k16, p16⟩, Or.inr ⟨hlen, rfl⟩⟩

/-- A decode result is total modulo panics: the `From` conversions carry
no returned-error path of their own. -/
def OkOrPanic {α : Type} (x : DResult α) : Prop :=
  x = .error .panicked ∨ ∃ a, x = .ok a

theorem op_unwrapO {α : Type} (o : Option α) : OkOrPanic (unwrapO o) := by
  cases o <;> simp [OkOrPanic, unwrapO]

theorem op_unwrapE {α : Type} (x : DResult α) : OkOrPanic (unwrapE x) := by
  cases x <;> simp [OkOrPanic, unwrapE]

theorem op_indexPanic (vs : List Json) (i : ℕ) :
    OkOrPanic (indexPanic vs i) := op_unwrapO _

theorem op_pure {α : Type} (a : α) : OkOrPanic (pure a : DResult α) := by
  right
  exact ⟨a, rfl⟩

theorem op_bind {α β : Type} {x : DResult α} {f : α → DResult β}
    (hx : OkOrPanic x) (hf : ∀ a, OkOrPanic (f a)) : OkOrPanic (x >>= f) := by
  rcases hx with h | ⟨a, h⟩
  · rw [h]
    left
    rfl
  · rw [h, ok_bind]
    exact hf a

theorem op_ite {α : Type} (c : Prop) [Decidable c] {x y : DResult α}
    (hx : OkOrPanic x) (hy : OkOrPanic y) : OkOrPanic (if c then x else y) := by
  split
  · exact hx
  · exact hy

theorem sv_fromArr_okOrPanic (vs : List Json) :
    OkOrPanic (StateVector.fromArr vs) := by
  unfold StateVector.fromArr
  repeat' first
    | exact op_pure _
    | exact op_indexPanic _ _
    | exact op_unwrapO _
    | exact op_unwrapE _
    | apply op_ite
    | apply op_bind
    | intro a

/-- An array shorter than 17 elements makes the conversion panic (index
out of bounds or an earlier wrong-typed element), never a returned decode
error. -/
theorem sv_fromArr_short_panics {vs : List Json} (h : vs.length < 17) :
    StateVector.fromArr vs = .error .panicked := by
  rcases sv_fromArr_okOrPanic vs with hp | ⟨R, hok⟩
  · exact hp
  · exfalso
    obtain ⟨-, -, -, -, -, -, -, -, -, -, -, -, -, -, -, -, ⟨v16, k16, -⟩, -⟩ :=
      sv_fromArr_inv hok
    have := get?_some_lt vs 16 v16 k16
    omega

theorem get?_none_of_le {α : Type} :
    ∀ (l : List α) (n : ℕ), l.length ≤ n → l.get? n = none := by
  intro l
  induction l with
  | nil => intro n _; cases n <;> rfl
  | cons x xs ih =>
    intro n h
    cases n with
    | zero => simp at h
    | succ m => exact ih m (Nat.le_of_succ_le_succ h)

/-- A positional array that converts carries the same record through the
object form built from its elements. -/
theorem sv_obj_of_arr {vs : List Json} {R : StateVector}
    (hlen : vs.length = 17 ∨ vs.length = 18)
    (h : StateVector.fromArr vs = .ok R) :
    StateVector.fromObj (svObjOf vs) = .ok R := by
  obtain ⟨⟨v0, k0, p0⟩, ⟨v1, k1, p1⟩, ⟨v2, k2, p2⟩, ⟨v3, k3, p3⟩,
    ⟨v4, k4, p4⟩, ⟨v5, k5, p5⟩, ⟨v6, k6, p6⟩, ⟨v7, k7, p7⟩,
    ⟨v8, k8, p8⟩, ⟨v9, k9, p9⟩, ⟨v10, k10, p10⟩, ⟨v11, k11, p11⟩,
    ⟨v12, k12, p12⟩, ⟨v13, k13, p13⟩, ⟨v14, k14, p14⟩, ⟨v15, k15, p15⟩,
    ⟨v16, k16, p16⟩, hcat⟩ := sv_fromArr_inv h
  simp only [List.get?_eq_getElem?] at k0 k1 k2 k3 k4 k5 k6 k7 k8
  simp only [List.get?_eq_getElem?] at k9 k10 k11 k12 k13 k14 k15 k16
  rcases hcat with ⟨h18, v17, k17, pc⟩ | ⟨h18, hcn⟩
  · simp only [List.get?_eq_getElem?] at k17
    simp [StateVector.fromObj, svObjOf, getEntry, k0, k1, k2, k3, k4, k5,
          k6, k7, k8, k9, k10, k11, k12, k13, k14, k15, k16, k17,
          p0, p1, p2, p3, p4, p5, p6, p7, p8, p9, p10, p11, p12, p13, p14,
          p15, p16, pc, unwrapO_some, ok_bind, unwrapE_of_ok, dpure]
  · have hlen17 : vs.length = 17 := by
      rcases hlen with h17 | h18x
      · exact h17
      · exact absurd h18x h18
    have k17 : vs.get? 17 = none := get?_none_of_le vs 17 (by omega)
    simp only [List.get?_eq_getElem?] at k17
    simp [StateVector.fromObj, svObjOf, getEntry, k0, k1, k2, k3, k4, k5,
          k6, k7, k8, k9, k10, k11, k12, k13, k14, k15, k16, k17,
          p0, p1, p2, p3, p4, p5, p6, p7, p8, p9, p10, p11, p12, p13, p14,
          p15, p16, parseCategoryOpt, unwrapO_some, ok_bind, unwrapE_of_ok,
          dpure]
    rw [← hcn]

/-- Same for waypoints. -/
theorem wp_obj_of_arr {vs : List Json} {W : Waypoint}
    (h : Waypoint.fromArr vs = .ok W) :
    Waypoint.fromObj (wpObjOf vs) = .ok W := by
  simp only [Waypoint.fromArr, dbind_ok, unwrapO_ok, indexPanic_ok,
             dpure, dpure_ok] at h
  obtain ⟨v0, k0, t, pt, v1, k1, v2, k2, v3, k3, v4, k4, v5, k5, b, pb,
    hfin⟩ := h
  simp only [List.get?_eq_getElem?] at k0 k1 k2 k3 k4 k5
  simp [Waypoint.fromObj, wpObjOf, getEntry, k0, k1, k2, k3, k4, k5,
        pt, pb, unwrapO_some, ok_bind, dpure, ← hfin]

theorem psFromU8_big {n : ℕ} (h : 3 < n) : PositionSource.fromU8 n = .ADSB := by
  match n, h with
  | n + 4, _ => rfl

theorem acFromU8_big {n : ℕ} (h : 20 < n) :
    AirCraftCategory.fromU8 n = .NoInformation := by
  match n, h with
  | n + 21, _ => rfl

/-!
## The claims
-/

/-- C1: when the caller has pinned an explicit historical time, the
short-form (17-element) parse is attempted directly and its outcome
returned; when no time is pinned, the long-form (18-element) parse is
attempted first, and exactly on its failure the short-form parse runs on
the same bytes, whose success is returned rather than the long-form
failure. -/
theorem schema_fallback_ordering :
    (∀ (t : ℕ) (body : Json) (s : Lib.ShortInnerOpenSkyStates),
      Lib.parseShortInnerStates body = some s →
      Lib.StateRequest.decodeStates (some t) body =
        .ok (Lib.OpenSkyStates.from_short_inner s)) ∧
    (∀ (t : ℕ) (body : Json), Lib.parseShortInnerStates body = none →
      Lib.StateRequest.decodeStates (some t) body =
        .error (.invalidJson "short form parse failed")) ∧
    (∀ (body : Json) (v : Lib.InnerOpenSkyStates),
      Lib.parseInnerStates body = some v →
      Lib.StateRequest.decodeStates none body =
        .ok (Lib.OpenSkyStates.from_inner v)) ∧
    (∀ (body : Json) (s : Lib.ShortInnerOpenSkyStates),
      Lib.parseInnerStates body = none →
      Lib.parseShortInnerStates body = some s →
      Lib.StateRequest.decodeStates none body =
        .ok (Lib.OpenSkyStates.from_short_inner s)) := by
  refine ⟨?_, ?_, ?_, ?_⟩ <;> intros <;>
    simp_all [Lib.StateRequest.decodeStates]

/-- C1 witness: a body only the short form parses, decoded with no time
pinned, where the fallback returns the short-form result. -/
theorem schema_fallback_ordering_witness :
    Lib.StateRequest.decodeStates none shortBody =
      .ok (Lib.OpenSkyStates.mk 10 [Lib.StateVector.mk "abc123" none
        "Germany" none 5 none none none false none none none none none
        none true 0 none]) :=
  schema_fallback_ordering.2.2.2 shortBody
    (Lib.ShortInnerOpenSkyStates.mk 10 [Lib.ShortInnerStateVector.mk
      "abc123" none "Germany" none 5 none none none false none none none
      none none none true 0]) rfl rfl

/-- C2 (amended): a 17-element array converts with `category = none` and
an 18-element array with `category` decoded from element 17, but an array
of any other length is NOT a decode error reporting the observed length:
a length of 19 or more converts successfully with `category = none`
(extra elements silently ignored), and a length below 17 panics (index
out of bounds) instead of returning an error. -/
theorem variable_length_tolerance :
    (∀ (vs : List Json) (R : StateVector), StateVector.fromArr vs = .ok R →
      vs.length ≠ 18 → R.category = none) ∧
    (∀ (vs : List Json) (R : StateVector), StateVector.fromArr vs = .ok R →
      vs.length = 18 →
      ∃ v, vs.get? 17 = some v ∧ parseCategoryOpt v = .ok R.category) ∧
    (∀ vs : List Json, vs.length < 17 →
      StateVector.fromArr vs = .error .panicked) := by
  refine ⟨?_, ?_, fun vs h => sv_fromArr_short_panics h⟩
  · intro vs R h hne
    obtain ⟨-, -, -, -, -, -, -, -, -, -, -, -, -, -, -, -, -, hcat⟩ :=
      sv_fromArr_inv h
    rcases hcat with ⟨h18, -⟩ | ⟨-, hc⟩
    · exact absurd h18 hne
    · exact hc
  · intro vs R h h18
    obtain ⟨-, -, -, -, -, -, -, -, -, -, -, -, -, -, -, -, -, hcat⟩ :=
      sv_fromArr_inv h
    rcases hcat with ⟨-, hv⟩ | ⟨hne, -⟩
    · exact hv
    · exact absurd h18 hne

/-- C2 counterexample: a 19-element array (the fixture plus one junk
element) decodes successfully with `category = none`, not as a hard
decode error reporting the length. -/
theorem length19_decodes_without_error :
    (fixtureArr ++ [Json.str "extra"]).length = 19 ∧
    StateVector.fromArr (fixtureArr ++ [Json.str "extra"]) =
      .ok fixtureVector :=
  ⟨rfl, rfl⟩

/-- C2 witness: the empty array panics instead of erroring. -/
theorem variable_length_tolerance_witness :
    StateVector.fromArr [] = .error DError.panicked :=
  variable_length_tolerance.2.2 [] (by decide)

/-- C3: decoding the canonical object-form encoding reproduces the
record, for every `States`, every wire-representable `Flight` and every
`FlightTrack`. -/
theorem roundtrip_law :
    (∀ s : States, States.deserialize (States.serialize s) = .ok s) ∧
    (∀ f : Flight, f.wf → Flight.deserialize (Flight.serialize f) = some f) ∧
    (∀ t : FlightTrack,
      FlightTrack.deserialize (FlightTrack.serialize t) = .ok t) :=
  ⟨states_serialize_roundTrip, flight_serialize_roundTrip,
   flightTrack_serialize_roundTrip⟩

/-- C3 witness: the round trip at a concrete flight record. -/
theorem roundtrip_law_witness :
    Flight.deserialize (Flight.serialize (Flight.mk "70e050" 1517230718
        (some "RCTP") 1517234349 none (some "JCC667  ") none none none
        none 1 0)) =
      some (Flight.mk "70e050" 1517230718 (some "RCTP") 1517234349 none
        (some "JCC667  ") none none none none 1 0) :=
  roundtrip_law.2.1 _ (by simp [Flight.wf])

/-- C4: a positional array that decodes to a record and the equivalent
field-named object decode to the identical record (state vectors over
both wire lengths, and waypoints). -/
theorem dual_shape_equivalence :
    (∀ (vs : List Json) (R : StateVector),
      vs.length = 17 ∨ vs.length = 18 → StateVector.fromArr vs = .ok R →
      StateVector.fromObj (svObjOf vs) = .ok R) ∧
    (∀ (vs : List Json) (W : Waypoint), Waypoint.fromArr vs = .ok W →
      Waypoint.fromObj (wpObjOf vs) = .ok W) :=
  ⟨fun _ _ hlen h => sv_obj_of_arr hlen h, fun _ _ h => wp_obj_of_arr h⟩

/-- C4 witness: the fixture array and its object form decode to the same
record. -/
theorem dual_shape_equivalence_witness :
    StateVector.fromObj (svObjOf fixtureArr) = .ok fixtureVector :=
  dual_shape_equivalence.1 fixtureArr fixtureVector (Or.inr rfl) rfl

/-- C5 (amended): enum wire decoding truncates integer ordinals to their
low byte before the table lookup, so an unknown ordinal falls back to the
default variant only when its value mod 256 is outside the table (99 does,
so 99 decodes to ADS-B), while every known ordinal and every canonical
name decodes to its matching variant, unknown strings fall back to the
default, and "MLAT" decodes to MLAT. -/
theorem enum_fallback_amended :
    (∀ n : ℕ, n % 256 ≠ 0 → n % 256 ≠ 1 → n % 256 ≠ 2 → n % 256 ≠ 3 →
      PositionSource.deserialize (.num (.posInt n)) = .ok .ADSB) ∧
    (∀ s : String, s ≠ "ADSB" → s ≠ "ASTERIX" → s ≠ "MLAT" → s ≠ "FLARM" →
      PositionSource.deserialize (.str s) = .ok .ADSB) ∧
    PositionSource.deserialize (.num (.posInt 99)) = .ok .ADSB ∧
    PositionSource.deserialize (.str "MLAT") = .ok .MLAT ∧
    (∀ ps : PositionSource,
      PositionSource.deserialize (.num (.posInt ps.ordinal)) = .ok ps) ∧
    (∀ ps : PositionSource,
      PositionSource.deserialize (.str ps.canonicalName) = .ok ps) ∧
    (∀ n : ℕ, 20 < n % 256 →
      AirCraftCategory.deserialize (.num (.posInt n)) = .ok .NoInformation) ∧
    (∀ s : String, s ∉ AirCraftCategory.names →
      AirCraftCategory.deserialize (.str s) = .ok .NoInformation) ∧
    (∀ c : AirCraftCategory,
      AirCraftCategory.deserialize (.num (.posInt c.ordinal)) = .ok c) ∧
    (∀ c : AirCraftCategory,
      AirCraftCategory.deserialize (.str c.canonicalName) = .ok c) := by
  refine ⟨?_, ?_, rfl, rfl, ?_, ?_, ?_, ?_, ?_, ?_⟩
  · intro n h0 h1 h2 h3
    have hb : 3 < n % 256 := by omega
    simp [PositionSource.deserialize, JNum.as_u64, psFromU8_big hb]
  · intro s h1 h2 h3 h4
    simp [PositionSource.deserialize, PositionSource.fromStr, h1, h2, h3, h4]
  · intro ps
    cases ps <;> rfl
  · intro ps
    cases ps <;> rfl
  · intro n hb
    simp [AirCraftCategory.deserialize, JNum.as_u64, acFromU8_big hb]
  · intro s hs
    simp only [AirCraftCategory.names, List.mem_cons, List.mem_singleton] at hs
    push_neg at hs
    obtain ⟨e1, e2, e3, e4, e5, e6, e7, e8, e9, e10, e11, e12, e13, e14,
      e15, e16, e17, e18, e19, e20, e21⟩ := hs
    simp [AirCraftCategory.deserialize, AirCraftCategory.fromStr, e1, e2,
          e3, e4, e5, e6, e7, e8, e9, e10, e11, e12, e13, e14, e15, e16,
          e17, e18, e19, e20, e21]
  · intro c
    cases c <;> rfl
  · intro c
    cases c <;> rfl

/-- C5 counterexample: the unknown ordinal 258 does not decode to the
ADS-B default: the `as u8` cast truncates it to 2, which decodes to
MLAT. -/
theorem position_source_258_decodes_MLAT :
    PositionSource.deserialize (Json.num (JNum.posInt 258)) =
        .ok PositionSource.MLAT ∧
      PositionSource.MLAT ≠ PositionSource.ADSB :=
  ⟨rfl, by decide⟩

/-- C5 witness: the unknown-ordinal fallback applied at 99. -/
theorem enum_fallback_amended_witness :
    PositionSource.deserialize (Json.num (JNum.posInt 99)) =
      .ok PositionSource.ADSB :=
  enum_fallback_amended.1 99 (by decide) (by decide) (by decide) (by decide)

/-- C6: a states response whose `states` key is wire-null decodes to the
given time and an empty state-vector sequence, never an error; in
particular at time 1458564121. -/
theorem null_states_decodes_empty :
    (∀ t : ℕ, States.deserialize
        (Json.obj [("time", Json.num (JNum.posInt t)),
                   ("states", Json.null)]) =
      .ok (States.mk t [])) ∧
    States.deserialize
        (Json.obj [("time", Json.num (JNum.posInt 1458564121)),
                   ("states", Json.null)]) =
      .ok (States.mk 1458564121 []) :=
  ⟨fun _ => rfl, rfl⟩

/-- C7 (amended): decoding does not uniformly return typed errors on
malformed bodies: a wrong-typed element inside a state-vector array makes
the conversion panic rather than return an error; only a top-level
`states` value that is neither null nor an array is returned as a typed
serde error; and the waypoint array conversion silently coerces a
wrong-typed optional position field to absence. -/
theorem decode_failure_policy_amended :
    (∀ (v : Json) (rest : List Json), parseString v = none →
      StateVector.fromArr (v :: rest) = .error .panicked) ∧
    (∀ (t : ℕ) (j : Json), j ≠ Json.null → (∀ xs, j ≠ Json.arr xs) →
      States.deserialize
        (Json.obj [("time", Json.num (JNum.posInt t)), ("states", j)]) =
        .error (.custom "expected an array")) ∧
    Waypoint.fromArr [Json.num (JNum.posInt 5), Json.str "x", Json.null,
        Json.null, Json.null, Json.bool true] =
      .ok (Waypoint.mk 5 none none none none true) := by
  refine ⟨?_, ?_, rfl⟩
  · intro v rest h
    simp [StateVector.fromArr, indexPanic, List.get?, unwrapO_some,
          ok_bind, h, unwrapO, error_bind]
  · intro t j h1 h2
    cases j
    case null => exact absurd rfl h1
    case arr xs => exact absurd rfl (h2 xs)
    all_goals rfl

/-- C7 counterexample: a body whose state-vector element has a number
where the icao24 string belongs makes the whole decode panic (an
`unwrap` of a failed conversion), not return a typed decode error. -/
theorem decode_panics_on_wrong_typed_element :
    States.deserialize (Json.obj [("time", Json.num (JNum.posInt 1458564121)),
        ("states", Json.arr [Json.arr [Json.num (JNum.posInt 7)]])]) =
      .error DError.panicked := rfl

/-- C7 witness: a null in icao24 position panics the conversion. -/
theorem decode_failure_policy_amended_witness :
    StateVector.fromArr [Json.null] = .error DError.panicked :=
  decode_failure_policy_amended.1 Json.null [] rfl

/-- C8: the fixture body decodes to exactly one state vector with the
documented identity fields, ADS-B position source and no category, and
its canonical re-encoding is exactly the object-form literal of the
test. -/
theorem fixture_end_to_end :
    States.deserialize fixtureBody = .ok (States.mk 1458564121 [fixtureVector]) ∧
    States.serialize (States.mk 1458564121 [fixtureVector]) = fixtureCanonical ∧
    fixtureVector.icao24 = "3c6444" ∧
    fixtureVector.callsign = some "DLH9LF  " ∧
    fixtureVector.position_source = PositionSource.ADSB ∧
    fixtureVector.category = none :=
  ⟨rfl, rfl, rfl, rfl, rfl, rfl⟩

/-- C9: every status other than OK is surfaced as `Error::Http` carrying
that status without the body being decoded (the outcome is independent of
the body), except NOT_FOUND (404), which returns an empty collection. -/
theorem flights_http_status_policy :
    (∀ (status : ℕ) (body : Json), status ≠ 200 → status ≠ 404 →
      FlightsRequest.handleResponse status body = .error (.http status)) ∧
    (∀ (status : ℕ) (b1 b2 : Json), status ≠ 200 →
      FlightsRequest.handleResponse status b1 =
        FlightsRequest.handleResponse status b2) ∧
    (∀ body : Json, FlightsRequest.handleResponse 404 body = .ok []) := by
  refine ⟨?_, ?_, fun _ => rfl⟩
  · intro status body h1 h2
    simp [FlightsRequest.handleResponse, h1, h2]
  · intro status b1 b2 h1
    simp [FlightsRequest.handleResponse, h1]

/-- C9 witness: status 500 is surfaced as the HTTP error, status 404 as
the empty collection. -/
theorem flights_http_status_policy_witness :
    FlightsRequest.handleResponse 500 Json.null = .error (Error.http 500) ∧
    FlightsRequest.handleResponse 404 Json.null = .ok [] :=
  ⟨flights_http_status_policy.1 500 Json.null (by decide) (by decide),
   flights_http_status_policy.2.2 Json.null⟩

/-- C10: a successful object-form decode pins all 18 field keys present
in the map, the optional `category` and `sensors` keys included; an
object missing any key never decodes to a defaulted record. -/
theorem object_form_requires_all_keys :
    ∀ (m : List (String × Json)) (R : StateVector),
      StateVector.fromObj m = .ok R → allKeysPresent m :=
  fun _ _ h => sv_fromObj_keys h

/-- C10 witness: the fixture's canonical object decodes, and the theorem
yields all its keys present. -/
theorem object_form_requires_all_keys_witness :
    allKeysPresent fixtureEntries :=
  object_form_requires_all_keys fixtureEntries fixtureVector rfl

end Opensky
